import Mathlib

set_option autoImplicit false

/-!
Verification development for the FL Studio MIDI automation engine
(`src/fl_studio_automation/fl_studio_midi_controller.py`).

The engine receives raw 3-byte MIDI frames through the `OnMidiIn` callback,
classifies them, and dispatches actions to an external control surface
(the FL Studio API modules `transport`, `mixer`, `channels`, `patterns`,
`ui`), while maintaining a mutable `AutomationState`.

Modelling decisions:
* Python floats are modelled as exact rationals (`ℚ`); every numeric
  expression the engine computes (`value / 127.0`, `normalized - 0.5`,
  `20 + normalized * 280`) is exact in ℚ for the inputs involved.
* The external surface is a parameter (`Surface`): each external call is
  given an outcome by the surface — a query either returns a value or
  raises, a command either succeeds or raises.  This lets theorems
  quantify over every outcome of the external calls.
* A handler invocation is summarised by a `StepResult`: the state after
  the handler returns (or after the statement that raised), the list of
  external calls attempted in order, and whether an exception escaped the
  callback (`raised`).  Python `try/except` blocks in the source swallow
  the exception (`raised := false`); external calls made outside any
  `try` propagate (`raised := true`).
* Python `dict` assignment `d[k] = v` is modelled on association lists by
  `dictSet` (replace the binding if the key is present, else append).
* Python `set` is modelled by `Finset`; `add` is `insert`, `discard` is
  `erase` (a no-op on an absent element, exactly as in Python).
-/

/-- Configuration constants of the script (lines 27-37 of the source). -/
def MIDI_CC_MASTER_VOLUME : Nat := 1

/-- CC number for selected-track volume. -/
def MIDI_CC_TRACK_VOLUME : Nat := 2

/-- CC number for selected-track pan. -/
def MIDI_CC_PAN : Nat := 3

/-- CC number for the tempo hint. -/
def MIDI_CC_TEMPO : Nat := 4

/-- Note number that starts the transport. -/
def MIDI_NOTE_PLAY : Nat := 60

/-- Note number that stops the transport. -/
def MIDI_NOTE_STOP : Nat := 61

/-- Note number for the record toggle. -/
def MIDI_NOTE_RECORD : Nat := 62

/-- First note of the pattern-triggering range (C1). -/
def PATTERN_NOTE_START : Nat := 36

/-- Last note of the pattern-triggering range (D#2). -/
def PATTERN_NOTE_END : Nat := 51

/-- The typed event a raw frame classifies to (spec §3 `MidiEvent`). -/
inductive MidiEvent where
  | NoteOn (note velocity : Nat)
  | NoteOff (note : Nat)
  | ControlChange (controller value : Nat)
  | ProgramChange (program : Nat)
  | Unknown
deriving DecidableEq

/-- The mutable automation state (class `AutomationState`, source lines
43-64).  Dictionaries become association lists, the pattern set becomes a
`Finset ℕ`. -/
structure AutomationState where
  last_mixer_values : List (Int × ℚ)
  last_channel_values : List (Int × ℚ)
  recording_enabled : Bool
  automation_enabled : Bool
  tempo_last : ℚ
  active_patterns : Finset Nat
deriving DecidableEq

/-- The state built by `AutomationState.__init__`. -/
def initState : AutomationState :=
  { last_mixer_values := []
    last_channel_values := []
    recording_enabled := false
    automation_enabled := true
    tempo_last := 120
    active_patterns := ∅ }

/-- Python dict assignment `d[k] = v` on an association list: replace the
binding if the key is present, otherwise append it. -/
def dictSet (d : List (Int × ℚ)) (k : Int) (v : ℚ) : List (Int × ℚ) :=
  if d.any (fun p => p.1 == k) then
    d.map (fun p => if p.1 == k then (k, v) else p)
  else
    d ++ [(k, v)]

/-- An external call attempted by the engine, with its arguments.  Query
calls are recorded as well as commands, so a call trace determines exactly
what the engine asked of the surface. -/
inductive Call where
  | transportStart
  | transportStop
  | getPos
  | queryPatternCount
  | selectPattern (idx : Nat)
  | queryChannelCount
  | setChannelVolume (idx : Nat) (volume : ℚ)
  | querySelectedTrack
  | setTrackVolume (track : Int) (volume : ℚ)
  | setTrackPan (track : Int) (pan : ℚ)
  | showTempoHint (bpm : ℚ)
deriving DecidableEq

/-- Outcomes chosen by the external control surface for each call the
engine can make.  `Option` queries: `none` means the call raises.
Boolean commands: `false` means the call raises.  (Whether the assignment
`patterns.currentPattern = i` raises is irrelevant to the observable
behaviour: both in `HandleNoteOn` and in `HandleProgramChange` it is the
last statement inside a `try` whose handler only logs, so its failure is
swallowed with no state effect; it is therefore not modelled.) -/
structure Surface where
  transportStartOk : Bool
  transportStopOk : Bool
  getPosOk : Bool
  patternCount : Option Nat
  channelCount : Option Nat
  setChannelVolumeOk : Nat → ℚ → Bool
  selectedTrack : Option Int
  setTrackVolumeOk : Int → ℚ → Bool
  setTrackPanOk : Int → ℚ → Bool
  setHintOk : Bool

/-- Result of one handler/callback invocation: state on exit, external
calls attempted in order, and whether an exception escaped the callback. -/
structure StepResult where
  st : AutomationState
  calls : List Call
  raised : Bool
deriving DecidableEq

/-- `HandleNoteOn` (source lines 133-174).  Transport notes call
`transport.start/stop/getPos` outside any `try` (failures propagate);
pattern notes first add to `active_patterns`, then attempt the pattern
switch inside a `try` (failures swallowed); channel-volume notes call
`channels.channelCount()` and `channels.setChannelVolume` outside any
`try` (failures propagate). -/
def HandleNoteOn (surf : Surface) (st : AutomationState) (note velocity : Nat) :
    StepResult :=
  if note = MIDI_NOTE_PLAY then
    { st := st, calls := [.transportStart], raised := !surf.transportStartOk }
  else if note = MIDI_NOTE_STOP then
    { st := st, calls := [.transportStop], raised := !surf.transportStopOk }
  else if note = MIDI_NOTE_RECORD then
    if surf.getPosOk then
      { st := st, calls := [.getPos, .transportStart],
        raised := !surf.transportStartOk }
    else
      { st := st, calls := [.getPos], raised := true }
  else if PATTERN_NOTE_START ≤ note ∧ note ≤ PATTERN_NOTE_END then
    let pattern_index := note - PATTERN_NOTE_START
    let st' := { st with active_patterns := insert pattern_index st.active_patterns }
    match surf.patternCount with
    | none => { st := st', calls := [.queryPatternCount], raised := false }
    | some c =>
      if pattern_index < c then
        { st := st', calls := [.queryPatternCount, .selectPattern pattern_index],
          raised := false }
      else
        { st := st', calls := [.queryPatternCount], raised := false }
  else if 64 ≤ note ∧ note ≤ 79 then
    let channel_index := note - 64
    let volume : ℚ := (velocity : ℚ) / 127
    match surf.channelCount with
    | none => { st := st, calls := [.queryChannelCount], raised := true }
    | some c =>
      if channel_index < c then
        { st := st, calls := [.queryChannelCount, .setChannelVolume channel_index volume],
          raised := !surf.setChannelVolumeOk channel_index volume }
      else
        { st := st, calls := [.queryChannelCount], raised := false }
  else
    { st := st, calls := [], raised := false }

/-- `HandleNoteOff` (source lines 177-184): discard the pattern index from
`active_patterns` when the note is in the pattern range; no external call,
no failure mode. -/
def HandleNoteOff (st : AutomationState) (note : Nat) : StepResult :=
  if PATTERN_NOTE_START ≤ note ∧ note ≤ PATTERN_NOTE_END then
    { st := { st with
        active_patterns := st.active_patterns.erase (note - PATTERN_NOTE_START) },
      calls := [], raised := false }
  else
    { st := st, calls := [], raised := false }

/-- `HandleControlChange` (source lines 191-266).  Every branch with an
external call is wrapped in `try/except` in the source, so no branch
raises past the callback; the cache update `last_mixer_values[track] =
normalized` follows the external call, so it happens only when the call
succeeded.  CC 64 sets `automation_enabled := cc_value >= 64` with no
external call. -/
def HandleControlChange (surf : Surface) (st : AutomationState)
    (cc_number cc_value : Nat) : StepResult :=
  let normalized : ℚ := (cc_value : ℚ) / 127
  if cc_number = MIDI_CC_MASTER_VOLUME then
    if surf.setTrackVolumeOk 0 normalized then
      { st := { st with last_mixer_values := dictSet st.last_mixer_values 0 normalized },
        calls := [.setTrackVolume 0 normalized], raised := false }
    else
      { st := st, calls := [.setTrackVolume 0 normalized], raised := false }
  else if cc_number = MIDI_CC_TRACK_VOLUME then
    match surf.selectedTrack with
    | none => { st := st, calls := [.querySelectedTrack], raised := false }
    | some track =>
      if 0 ≤ track then
        if surf.setTrackVolumeOk track normalized then
          { st := { st with
              last_mixer_values := dictSet st.last_mixer_values track normalized },
            calls := [.querySelectedTrack, .setTrackVolume track normalized],
            raised := false }
        else
          { st := st, calls := [.querySelectedTrack, .setTrackVolume track normalized],
            raised := false }
      else
        { st := st, calls := [.querySelectedTrack], raised := false }
  else if cc_number = MIDI_CC_PAN then
    let pan_value : ℚ := normalized - 1/2
    match surf.selectedTrack with
    | none => { st := st, calls := [.querySelectedTrack], raised := false }
    | some track =>
      if 0 ≤ track then
        { st := st, calls := [.querySelectedTrack, .setTrackPan track pan_value],
          raised := false }
      else
        { st := st, calls := [.querySelectedTrack], raised := false }
  else if cc_number = MIDI_CC_TEMPO then
    let tempo : ℚ := 20 + normalized * 280
    if surf.setHintOk then
      { st := { st with tempo_last := tempo },
        calls := [.showTempoHint tempo], raised := false }
    else
      { st := st, calls := [.showTempoHint tempo], raised := false }
  else if cc_number = 7 then
    match surf.selectedTrack with
    | none => { st := st, calls := [.querySelectedTrack], raised := false }
    | some track =>
      if 0 ≤ track then
        if surf.setTrackVolumeOk track normalized then
          { st := { st with
              last_mixer_values := dictSet st.last_mixer_values track normalized },
            calls := [.querySelectedTrack, .setTrackVolume track normalized],
            raised := false }
        else
          { st := st, calls := [.querySelectedTrack, .setTrackVolume track normalized],
            raised := false }
      else
        { st := st, calls := [.querySelectedTrack], raised := false }
  else if cc_number = 10 then
    let pan_value : ℚ := normalized - 1/2
    match surf.selectedTrack with
    | none => { st := st, calls := [.querySelectedTrack], raised := false }
    | some track =>
      if 0 ≤ track then
        { st := st, calls := [.querySelectedTrack, .setTrackPan track pan_value],
          raised := false }
      else
        { st := st, calls := [.querySelectedTrack], raised := false }
  else if cc_number = 64 then
    { st := { st with automation_enabled := decide (64 ≤ cc_value) },
      calls := [], raised := false }
  else
    { st := st, calls := [], raised := false }

/-- `HandleProgramChange` (source lines 273-283): inside a `try`, query
the pattern count and switch the current pattern only when `program` is
below it; all failures swallowed, no state update. -/
def HandleProgramChange (surf : Surface) (st : AutomationState) (program : Nat) :
    StepResult :=
  match surf.patternCount with
  | none => { st := st, calls := [.queryPatternCount], raised := false }
  | some c =>
    if program < c then
      { st := st, calls := [.queryPatternCount, .selectPattern program],
        raised := false }
    else
      { st := st, calls := [.queryPatternCount], raised := false }

/-- `OnMidiIn` (source lines 98-126): classification of the raw frame and
dispatch to the handlers.  The source compares `event.status` for equality
with the literal bytes `0x90`, `0x80`, `0xB0`, `0xC0`. -/
def OnMidiIn (surf : Surface) (st : AutomationState) (status data1 data2 : Nat) :
    StepResult :=
  if status = 0x90 ∨ status = 0x80 then
    if status = 0x90 ∧ 0 < data2 then
      HandleNoteOn surf st data1 data2
    else
      HandleNoteOff st data1
  else if status = 0xB0 then
    HandleControlChange surf st data1 data2
  else if status = 0xC0 then
    HandleProgramChange surf st data1
  else
    { st := st, calls := [], raised := false }

/-- The typed event a frame classifies to, read off the dispatch structure
of `OnMidiIn`: the same equality tests on the status byte, the same
zero-velocity rule. -/
def decode (status data1 data2 : Nat) : MidiEvent :=
  if status = 0x90 ∨ status = 0x80 then
    if status = 0x90 ∧ 0 < data2 then .NoteOn data1 data2
    else .NoteOff data1
  else if status = 0xB0 then .ControlChange data1 data2
  else if status = 0xC0 then .ProgramChange data1
  else .Unknown

/-- Process a list of frames in delivery order, threading the state,
concatenating the call traces, and remembering whether any invocation
raised.  (The host keeps delivering messages even after an escaped
exception, so the fold continues unconditionally.) -/
def runEvents (surf : Surface) (st : AutomationState) :
    List (Nat × Nat × Nat) → AutomationState × List Call × Bool
  | [] => (st, [], false)
  | e :: es =>
    let r := OnMidiIn surf st e.1 e.2.1 e.2.2
    let rest := runEvents surf r.st es
    (rest.1, r.calls ++ rest.2.1, r.raised || rest.2.2)

/-- State after processing a list of frames. -/
def runState (surf : Surface) (st : AutomationState) (es : List (Nat × Nat × Nat)) :
    AutomationState :=
  (runEvents surf st es).1

/-- A surface on which every call succeeds: three patterns, four channels,
track 0 selected. -/
def surfDefault : Surface :=
  { transportStartOk := true
    transportStopOk := true
    getPosOk := true
    patternCount := some 3
    channelCount := some 4
    setChannelVolumeOk := fun _ _ => true
    selectedTrack := some 0
    setTrackVolumeOk := fun _ _ => true
    setTrackPanOk := fun _ _ => true
    setHintOk := true }

/-- A surface whose pattern-count query raises (surface unavailable). -/
def surfPatternFail : Surface := { surfDefault with patternCount := none }

/-- A surface whose transport-start call raises. -/
def surfTransportFail : Surface := { surfDefault with transportStartOk := false }

/-- A surface on which every query and every command fails, with track 0
selected so that track commands are actually attempted (and fail). -/
def surfAllFail : Surface :=
  { transportStartOk := false
    transportStopOk := false
    getPosOk := false
    patternCount := none
    channelCount := none
    setChannelVolumeOk := fun _ _ => false
    selectedTrack := some 0
    setTrackVolumeOk := fun _ _ => false
    setTrackPanOk := fun _ _ => false
    setHintOk := false }

/-- C1 counterexample: the claim says classification is by the high nibble
of the status byte, so status `0x91` (high nibble `0x9`, data2 > 0) would
have to decode to `NoteOn`.  The code compares the full status byte with
`0x90`/`0x80`/`0xB0`/`0xC0`, so the frame `(0x91, 60, 100)` decodes to
`Unknown` and is inert: no state change, no external call, no raise. -/
theorem C1_high_nibble_counterexample :
    0x91 / 16 = 0x9 ∧
    decode 0x91 60 100 = MidiEvent.Unknown ∧
    MidiEvent.Unknown ≠ MidiEvent.NoteOn 60 100 ∧
    OnMidiIn surfDefault initState 0x91 60 100 =
      { st := initState, calls := [], raised := false } := by
  refine ⟨by norm_num, by decide, by decide, rfl⟩

/-- C1 (amended): classification is by the exact status byte, not by its
high nibble.  Status `0x80` decodes to `NoteOff(data1)`; status `0x90`
decodes to `NoteOff(data1)` when `data2 = 0` and to `NoteOn(data1,data2)`
when `data2 > 0`; status `0xB0` to `ControlChange`; status `0xC0` to
`ProgramChange`; every other status byte — including those sharing a high
nibble with the four above, such as `0x91` — decodes to `Unknown` and is
inert (state unchanged, no external call, no raise).  Decoding is a total
function, so it never raises.  A frame with status `0x90` and `data2 = 0`
behaves exactly like the frame with status `0x80` and the same note. -/
theorem C1_exact_status_classification (surf : Surface) (st : AutomationState)
    (status data1 data2 : Nat) :
    decode 0x80 data1 data2 = MidiEvent.NoteOff data1 ∧
    (data2 = 0 → decode 0x90 data1 data2 = MidiEvent.NoteOff data1) ∧
    (0 < data2 → decode 0x90 data1 data2 = MidiEvent.NoteOn data1 data2) ∧
    decode 0xB0 data1 data2 = MidiEvent.ControlChange data1 data2 ∧
    decode 0xC0 data1 data2 = MidiEvent.ProgramChange data1 ∧
    (¬(status = 0x80 ∨ status = 0x90 ∨ status = 0xB0 ∨ status = 0xC0) →
      decode status data1 data2 = MidiEvent.Unknown ∧
      OnMidiIn surf st status data1 data2 =
        { st := st, calls := [], raised := false }) ∧
    OnMidiIn surf st 0x90 data1 0 = OnMidiIn surf st 0x80 data1 0 := by
  refine ⟨by simp [decode], ?_, ?_, by norm_num [decode], by norm_num [decode], ?_, ?_⟩
  · intro h; simp [decode, h]
  · intro h; simp [decode, h]
  · intro h
    push_neg at h
    obtain ⟨h1, h2, h3, h4⟩ := h
    constructor
    · simp only [decode]
      rw [if_neg (by omega), if_neg (by omega), if_neg (by omega)]
    · simp only [OnMidiIn]
      rw [if_neg (by omega), if_neg (by omega), if_neg (by omega)]
  · simp [OnMidiIn]

/-- C1 witness: concrete instances of the amended classification — the
zero-velocity note-on frame `(0x90, 40, 0)` behaves like `(0x80, 40, 0)`,
and the frame with status `0x75` is classified `Unknown` and inert. -/
theorem C1_witness :
    decode 0x90 40 0 = MidiEvent.NoteOff 40 ∧
    decode 0x75 1 2 = MidiEvent.Unknown ∧
    OnMidiIn surfDefault initState 0x90 40 0 =
      OnMidiIn surfDefault initState 0x80 40 0 := by
  refine ⟨(C1_exact_status_classification surfDefault initState 0x75 40 0).2.1 rfl,
    ((C1_exact_status_classification surfDefault initState 0x75 1 2).2.2.2.2.2.1
      (by decide)).1,
    (C1_exact_status_classification surfDefault initState 0x75 40 0).2.2.2.2.2.2⟩

/-- C3 counterexample: on a surface reporting three patterns, the frame
`ProgramChange(5)` does NOT issue `SelectPattern(5)`: the engine itself
checks `program < patternCount()` and, the check failing, only the
pattern-count query reaches the surface. -/
theorem C3_unconditional_select_counterexample :
    surfDefault.patternCount = some 3 ∧
    (OnMidiIn surfDefault initState 0xC0 5 0).calls = [Call.queryPatternCount] ∧
    Call.selectPattern 5 ∉ (OnMidiIn surfDefault initState 0xC0 5 0).calls := by
  refine ⟨rfl, rfl, by decide⟩

/-- C3 (amended): a `ProgramChange(p)` event queries the pattern count and
issues `SelectPattern(p)` exactly when `p` is below the reported count —
the range check is performed at the engine layer, not delegated to the
surface.  In every case the state is unchanged and nothing raises. -/
theorem C3_program_change_guarded (surf : Surface) (st : AutomationState)
    (p d2 c : Nat) (h : surf.patternCount = some c) :
    Call.queryPatternCount ∈ (OnMidiIn surf st 0xC0 p d2).calls ∧
    (Call.selectPattern p ∈ (OnMidiIn surf st 0xC0 p d2).calls ↔ p < c) ∧
    (OnMidiIn surf st 0xC0 p d2).st = st ∧
    (OnMidiIn surf st 0xC0 p d2).raised = false := by
  simp only [OnMidiIn, HandleProgramChange, h]
  norm_num
  split_ifs with hc <;> simp [hc]

/-- C3 witness: on the default surface (three patterns), `ProgramChange(1)`
issues `SelectPattern(1)` while leaving the state unchanged. -/
theorem C3_witness :
    Call.selectPattern 1 ∈ (OnMidiIn surfDefault initState 0xC0 1 0).calls ∧
    (OnMidiIn surfDefault initState 0xC0 1 0).st = initState := by
  have h := C3_program_change_guarded surfDefault initState 1 0 3 rfl
  exact ⟨h.2.1.mpr (by norm_num), h.2.2.1⟩

/-- C4 counterexample: `transport.start()` in `HandleNoteOn` is not
wrapped in `try/except`, so on a surface whose transport-start call fails,
processing the well-formed frame `(0x90, 60, 100)` raises past the
callback boundary. -/
theorem C4_raise_counterexample :
    (OnMidiIn surfTransportFail initState 0x90 60 100).raised = true := rfl

/-- Helper: `HandleControlChange` never raises past the callback — every
external call it makes is inside a `try/except`. -/
theorem HandleControlChange_never_raises (surf : Surface) (st : AutomationState)
    (cc v : Nat) : (HandleControlChange surf st cc v).raised = false := by
  simp only [HandleControlChange]
  split_ifs <;> first
    | rfl
    | (rcases surf.selectedTrack with _ | t <;> simp <;> split_ifs <;> rfl)

/-- Helper: `HandleProgramChange` never raises past the callback. -/
theorem HandleProgramChange_never_raises (surf : Surface) (st : AutomationState)
    (p : Nat) : (HandleProgramChange surf st p).raised = false := by
  simp only [HandleProgramChange]
  rcases surf.patternCount with _ | c <;> simp <;> split_ifs <;> rfl

/-- C4 (amended): processing a frame raises past the callback boundary
only when it is a note-on mapping to an unguarded external call — a
transport note (60, 61, 62) or a channel-volume note (64..79).  For every
other frame — every note-off, every pattern note, every control change,
every program change, every unknown status — processing completes without
raising, whatever the outcome of the external calls. -/
theorem C4_no_raise_outside_unguarded (surf : Surface) (st : AutomationState)
    (status data1 data2 : Nat)
    (h : ¬(status = 0x90 ∧ 0 < data2 ∧
        (data1 = MIDI_NOTE_PLAY ∨ data1 = MIDI_NOTE_STOP ∨ data1 = MIDI_NOTE_RECORD ∨
          (64 ≤ data1 ∧ data1 ≤ 79)))) :
    (OnMidiIn surf st status data1 data2).raised = false := by
  simp only [OnMidiIn]
  split_ifs with h1 h2 h3 h4
  · -- note-on path: data1 avoids every unguarded range
    have hd : ¬(data1 = MIDI_NOTE_PLAY ∨ data1 = MIDI_NOTE_STOP ∨
        data1 = MIDI_NOTE_RECORD ∨ (64 ≤ data1 ∧ data1 ≤ 79)) := by
      intro hc; exact h ⟨h2.1, h2.2, hc⟩
    push_neg at hd
    obtain ⟨hp, hs, hr, hch⟩ := hd
    simp only [HandleNoteOn]
    rw [if_neg hp, if_neg hs, if_neg hr]
    split_ifs with hpat hch2
    · rcases surf.patternCount with _ | c <;> simp <;> split_ifs <;> rfl
    · exact absurd (hch hch2.1) (by omega)
    · rfl
  · simp only [HandleNoteOff]; split_ifs <;> rfl
  · exact HandleControlChange_never_raises surf st data1 data2
  · exact HandleProgramChange_never_raises surf st data1
  · rfl

/-- C4 witness: a control-change frame with an out-of-range data byte and
a pattern-range note-on never raise, even on a surface where every call
fails. -/
theorem C4_witness :
    (OnMidiIn surfPatternFail initState 0xB0 4 254).raised = false ∧
    (OnMidiIn surfPatternFail initState 0x90 36 100).raised = false := by
  exact ⟨C4_no_raise_outside_unguarded surfPatternFail initState 0xB0 4 254 (by decide),
    C4_no_raise_outside_unguarded surfPatternFail initState 0x90 36 100 (by decide)⟩

/-- C7 (confirmed): `ControlChange(64, v)` sets `automation_enabled` to
`v >= 64`; in particular value 63 disables automation and value 64 enables
it — the threshold is inclusive at 64. -/
theorem C7_sustain_threshold (surf : Surface) (st : AutomationState) (v : Nat) :
    (OnMidiIn surf st 0xB0 64 v).st.automation_enabled = decide (64 ≤ v) ∧
    (OnMidiIn surf st 0xB0 64 63).st.automation_enabled = false ∧
    (OnMidiIn surf st 0xB0 64 64).st.automation_enabled = true := by
  exact ⟨rfl, rfl, rfl⟩

/-- Helper: unfolding one step of `runState`. -/
theorem runState_cons (surf : Surface) (st : AutomationState)
    (e : Nat × Nat × Nat) (es : List (Nat × Nat × Nat)) :
    runState surf st (e :: es) = runState surf (OnMidiIn surf st e.1 e.2.1 e.2.2).st es := rfl

/-- Helper: on a pattern-range note, `HandleNoteOn` always adds the
pattern index to `active_patterns` — whatever the outcome of the
pattern-count query and the pattern switch — and changes nothing else. -/
theorem HandleNoteOn_pattern_st (surf : Surface) (st : AutomationState)
    (note vel : Nat) (h1 : PATTERN_NOTE_START ≤ note) (h2 : note ≤ PATTERN_NOTE_END) :
    (HandleNoteOn surf st note vel).st =
      { st with active_patterns :=
          insert (note - PATTERN_NOTE_START) st.active_patterns } ∧
    (HandleNoteOn surf st note vel).raised = false := by
  have hb : PATTERN_NOTE_START = 36 ∧ PATTERN_NOTE_END = 51 := ⟨rfl, rfl⟩
  simp only [HandleNoteOn]
  rw [if_neg (by simp only [MIDI_NOTE_PLAY]; omega),
    if_neg (by simp only [MIDI_NOTE_STOP]; omega),
    if_neg (by simp only [MIDI_NOTE_RECORD]; omega),
    if_pos ⟨h1, h2⟩]
  rcases surf.patternCount with _ | c <;> simp <;> split_ifs <;> simp

/-- C2 counterexample: a pattern note-on whose external pattern-count
query fails (surface unavailable) still updates `AutomationState`: the
pattern index is added to `active_patterns` before the external call is
attempted, so the failed action does alter the state. -/
theorem C2_failed_action_updates_state_counterexample :
    surfPatternFail.patternCount = none ∧
    (OnMidiIn surfPatternFail initState 0x90 36 100).st.active_patterns = {0} ∧
    initState.active_patterns = ∅ ∧
    (OnMidiIn surfPatternFail initState 0x90 36 100).st ≠ initState := by
  refine ⟨rfl, by decide, rfl, by decide⟩

/-- C2 (amended): a failed external call never aborts processing and never
raises, and for the control-change and program-change actions it leaves
`AutomationState` entirely unchanged, so the following events take exactly
the effect they would have had anyway; for a pattern-trigger note-on,
however, `active_patterns` is updated before the external call, so the
index is recorded even when the call fails (the failure itself is still
swallowed and subsequent events still take effect). -/
theorem C2_failed_action_isolation (surf : Surface) (st : AutomationState)
    (hv : ∀ t x, surf.setTrackVolumeOk t x = false)
    (hp : ∀ t x, surf.setTrackPanOk t x = false)
    (hh : surf.setHintOk = false)
    (hpc : surf.patternCount = none) :
    (∀ cc v, cc = 1 ∨ cc = 2 ∨ cc = 3 ∨ cc = 4 ∨ cc = 7 ∨ cc = 10 →
      (HandleControlChange surf st cc v).st = st ∧
      (HandleControlChange surf st cc v).raised = false) ∧
    (∀ p, (HandleProgramChange surf st p).st = st ∧
      (HandleProgramChange surf st p).raised = false) ∧
    (∀ note vel, PATTERN_NOTE_START ≤ note → note ≤ PATTERN_NOTE_END →
      (HandleNoteOn surf st note vel).st =
        { st with active_patterns :=
            insert (note - PATTERN_NOTE_START) st.active_patterns } ∧
      (HandleNoteOn surf st note vel).raised = false) ∧
    (∀ cc v es, cc = 1 ∨ cc = 2 ∨ cc = 3 ∨ cc = 4 ∨ cc = 7 ∨ cc = 10 →
      runState surf st ((0xB0, cc, v) :: es) = runState surf st es) := by
  have hcc : ∀ cc v, cc = 1 ∨ cc = 2 ∨ cc = 3 ∨ cc = 4 ∨ cc = 7 ∨ cc = 10 →
      (HandleControlChange surf st cc v).st = st ∧
      (HandleControlChange surf st cc v).raised = false := by
    rintro cc v (rfl | rfl | rfl | rfl | rfl | rfl) <;>
      simp only [HandleControlChange, MIDI_CC_MASTER_VOLUME, MIDI_CC_TRACK_VOLUME,
        MIDI_CC_PAN, MIDI_CC_TEMPO, hv, hh] <;>
      norm_num <;>
      rcases surf.selectedTrack with _ | t <;> simp [hv] <;> split_ifs <;> simp
  refine ⟨hcc, ?_, ?_, ?_⟩
  · intro p
    simp [HandleProgramChange, hpc]
  · intro note vel h1 h2
    exact HandleNoteOn_pattern_st surf st note vel h1 h2
  · intro cc v es h
    rw [runState_cons]
    have h1 : OnMidiIn surf st 0xB0 cc v = HandleControlChange surf st cc v := by
      simp [OnMidiIn]
    rw [h1, (hcc cc v h).1]

/-- C2 witness: on a surface where every command fails, a master-volume
control change leaves the state untouched, does not raise, and a
subsequent event behaves as if the failed one had never arrived. -/
theorem C2_witness :
    (HandleControlChange surfAllFail initState 1 100).st = initState ∧
    runState surfAllFail initState [(0xB0, 1, 100), (0xB0, 64, 70)] =
      runState surfAllFail initState [(0xB0, 64, 70)] := by
  have h := C2_failed_action_isolation surfAllFail initState
    (fun _ _ => rfl) (fun _ _ => rfl) rfl rfl
  exact ⟨(h.1 1 100 (by norm_num)).1,
    h.2.2.2 1 100 [(0xB0, 64, 70)] (by norm_num)⟩

/-- Range invariant the spec documents for the stored numeric fields:
every cached mixer volume lies in `[0,1]` and the stored tempo lies in
`[20,300]`. -/
def stateInv (st : AutomationState) : Prop :=
  (∀ p ∈ st.last_mixer_values, 0 ≤ p.2 ∧ p.2 ≤ 1) ∧
  20 ≤ st.tempo_last ∧ st.tempo_last ≤ 300

/-- Helper: `dictSet` preserves a pointwise bound when the inserted value
satisfies it. -/
theorem dictSet_forall {d : List (Int × ℚ)} {k : Int} {v : ℚ}
    (hd : ∀ p ∈ d, 0 ≤ p.2 ∧ p.2 ≤ 1) (hv : 0 ≤ v ∧ v ≤ 1) :
    ∀ p ∈ dictSet d k v, 0 ≤ p.2 ∧ p.2 ≤ 1 := by
  intro p hp
  unfold dictSet at hp
  split_ifs at hp
  · obtain ⟨q, hq, hpq⟩ := List.mem_map.mp hp
    by_cases hk : q.1 == k
    · rw [if_pos hk] at hpq
      rw [← hpq]
      exact hv
    · rw [if_neg hk] at hpq
      rw [← hpq]
      exact hd q hq
  · rcases List.mem_append.mp hp with h | h
    · exact hd p h
    · rw [List.mem_singleton.mp h]
      exact hv

/-- C5 counterexample: the engine performs no clamping.  Feeding the
out-of-range value byte 254 on the tempo controller stores
`20 + (254/127)*280 = 580` BPM in `tempo_last`, violating the documented
`[20,300]` range — the claim that mutators clamp out-of-range inputs
before storing is false. -/
theorem C5_no_clamping_counterexample :
    (OnMidiIn surfDefault initState 0xB0 4 254).st.tempo_last = 580 ∧
    ¬(OnMidiIn surfDefault initState 0xB0 4 254).st.tempo_last ≤ 300 := by
  have h : (OnMidiIn surfDefault initState 0xB0 4 254).st.tempo_last = 580 := by
    norm_num [OnMidiIn, HandleControlChange, MIDI_CC_MASTER_VOLUME,
      MIDI_CC_TRACK_VOLUME, MIDI_CC_PAN, MIDI_CC_TEMPO, surfDefault, initState]
  refine ⟨h, by rw [h]; norm_num⟩

/-- Helper: `HandleNoteOn` changes at most `active_patterns`. -/
theorem HandleNoteOn_other_fields (surf : Surface) (st : AutomationState) (n v : Nat) :
    (HandleNoteOn surf st n v).st.last_mixer_values = st.last_mixer_values ∧
    (HandleNoteOn surf st n v).st.last_channel_values = st.last_channel_values ∧
    (HandleNoteOn surf st n v).st.recording_enabled = st.recording_enabled ∧
    (HandleNoteOn surf st n v).st.automation_enabled = st.automation_enabled ∧
    (HandleNoteOn surf st n v).st.tempo_last = st.tempo_last := by
  obtain ⟨ts, tp, gp, pc, chc, scv, selt, stv, stpan, sh⟩ := surf
  rcases pc with _ | c <;> rcases chc with _ | ch <;>
    simp only [HandleNoteOn] <;> split_ifs <;> exact ⟨rfl, rfl, rfl, rfl, rfl⟩

/-- Helper: `HandleNoteOff` changes at most `active_patterns`. -/
theorem HandleNoteOff_other_fields (st : AutomationState) (n : Nat) :
    (HandleNoteOff st n).st.last_mixer_values = st.last_mixer_values ∧
    (HandleNoteOff st n).st.last_channel_values = st.last_channel_values ∧
    (HandleNoteOff st n).st.recording_enabled = st.recording_enabled ∧
    (HandleNoteOff st n).st.automation_enabled = st.automation_enabled ∧
    (HandleNoteOff st n).st.tempo_last = st.tempo_last := by
  simp only [HandleNoteOff] <;> split_ifs <;> exact ⟨rfl, rfl, rfl, rfl, rfl⟩

/-- Helper: `HandleProgramChange` never changes the state at all. -/
theorem HandleProgramChange_st_eq (surf : Surface) (st : AutomationState) (p : Nat) :
    (HandleProgramChange surf st p).st = st := by
  obtain ⟨ts, tp, gp, pc, chc, scv, selt, stv, stpan, sh⟩ := surf
  rcases pc with _ | c <;> simp only [HandleProgramChange] <;> split_ifs <;> rfl

/-- Helper: `HandleControlChange` preserves the range invariant whenever
the value byte is a valid MIDI data byte. -/
theorem HandleControlChange_inv (surf : Surface) (st : AutomationState)
    (cc v : Nat) (hd : v ≤ 127) (hinv : stateInv st) :
    stateInv (HandleControlChange surf st cc v).st := by
  obtain ⟨hm, ht1, ht2⟩ := hinv
  have hnorm : 0 ≤ (v : ℚ) / 127 ∧ (v : ℚ) / 127 ≤ 1 := by
    constructor
    · positivity
    · rw [div_le_one (by norm_num)]
      exact_mod_cast hd
  have htempo : 20 ≤ 20 + (v : ℚ) / 127 * 280 ∧
      20 + (v : ℚ) / 127 * 280 ≤ 300 := by
    constructor <;> nlinarith [hnorm.1, hnorm.2]
  obtain ⟨ts, tp, gp, pc, chc, scv, selt, stv, stpan, sh⟩ := surf
  rcases selt with _ | t <;>
    simp only [HandleControlChange] <;>
    split_ifs <;>
    first
      | exact ⟨hm, ht1, ht2⟩
      | exact ⟨dictSet_forall hm hnorm, ht1, ht2⟩
      | exact ⟨hm, htempo.1, htempo.2⟩

/-- C5 (amended): every state mutation is total (the step function is a
total Lean function, so no mutation can fail), but no clamping is
performed: the stored ranges are guaranteed only because valid MIDI data
bytes lie in `0..127`.  For every frame whose value byte is in `0..127`,
processing preserves the documented range invariants (cached volumes in
`[0,1]`, tempo in `[20,300]`); an out-of-range value byte is stored
unclamped. -/
theorem C5_ranges_from_valid_input (surf : Surface) (st : AutomationState)
    (status data1 data2 : Nat) (hd2 : data2 ≤ 127) (hinv : stateInv st) :
    stateInv (OnMidiIn surf st status data1 data2).st := by
  obtain ⟨hm, ht1, ht2⟩ := hinv
  simp only [OnMidiIn]
  split_ifs with h1 h2 h3 h4
  · have h := HandleNoteOn_other_fields surf st data1 data2
    refine ⟨?_, ?_, ?_⟩
    · rw [h.1]; exact hm
    · rw [h.2.2.2.2]; exact ht1
    · rw [h.2.2.2.2]; exact ht2
  · have h := HandleNoteOff_other_fields st data1
    refine ⟨?_, ?_, ?_⟩
    · rw [h.1]; exact hm
    · rw [h.2.2.2.2]; exact ht1
    · rw [h.2.2.2.2]; exact ht2
  · exact HandleControlChange_inv surf st data1 data2 hd2 ⟨hm, ht1, ht2⟩
  · rw [HandleProgramChange_st_eq surf st data1]
    exact ⟨hm, ht1, ht2⟩
  · exact ⟨hm, ht1, ht2⟩

/-- C5 witness: a concrete in-range frame preserves the invariant from the
initial state. -/
theorem C5_witness : stateInv (OnMidiIn surfDefault initState 0xB0 4 127).st := by
  refine C5_ranges_from_valid_input surfDefault initState 0xB0 4 127 (by norm_num) ?_
  refine ⟨by simp [initState], by norm_num [initState], by norm_num [initState]⟩

/-- C6 (confirmed): for every note in the pattern range, a `NoteOn`
followed by the matching `NoteOff`, starting from an empty
`active_patterns`, leaves `active_patterns` empty; and a lone `NoteOff`
on an empty set leaves it empty without raising — removal of an absent
element is a no-op. -/
theorem C6_pattern_on_off_cancel (surf : Surface) (st : AutomationState)
    (note vel : Nat) (h1 : PATTERN_NOTE_START ≤ note) (h2 : note ≤ PATTERN_NOTE_END)
    (h3 : 0 < vel) (h4 : st.active_patterns = ∅) :
    (runState surf st [(0x90, note, vel), (0x80, note, 0)]).active_patterns = ∅ ∧
    (OnMidiIn surf st 0x80 note 0).st.active_patterns = ∅ ∧
    (OnMidiIn surf st 0x80 note 0).raised = false := by
  have hOn : OnMidiIn surf st 0x90 note vel = HandleNoteOn surf st note vel := by
    simp [OnMidiIn, h3]
  have hOffDispatch : ∀ s : AutomationState,
      OnMidiIn surf s 0x80 note 0 = HandleNoteOff s note := by
    intro s; simp [OnMidiIn]
  have hOffPat : ∀ s : AutomationState,
      (HandleNoteOff s note).st.active_patterns =
        s.active_patterns.erase (note - PATTERN_NOTE_START) := by
    intro s
    simp only [HandleNoteOff]
    rw [if_pos ⟨h1, h2⟩]
  refine ⟨?_, ?_, ?_⟩
  · rw [runState_cons, runState_cons]
    simp only [runState, runEvents]
    rw [hOn, hOffDispatch, hOffPat,
      (HandleNoteOn_pattern_st surf st note vel h1 h2).1]
    simp [h4]
  · rw [hOffDispatch, hOffPat, h4]
    exact Finset.erase_empty _
  · rw [hOffDispatch]
    simp only [HandleNoteOff]
    split_ifs <;> rfl

/-- C6 witness: concrete run — note 36 pressed then released starting from
the freshly initialised state. -/
theorem C6_witness :
    (runState surfDefault initState [(0x90, 36, 100), (0x80, 36, 0)]).active_patterns
      = ∅ ∧
    (OnMidiIn surfDefault initState 0x80 36 0).st.active_patterns = ∅ := by
  have h := C6_pattern_on_off_cancel surfDefault initState 36 100
    (by norm_num [PATTERN_NOTE_START]) (by norm_num [PATTERN_NOTE_END])
    (by norm_num) rfl
  exact ⟨h.1, h.2.1⟩

/-- The tempo mapping the engine applies to the tempo controller value
(source line 234, with `normalized = value/127.0`). -/
def tempoMap (v : Nat) : ℚ := 20 + (v : ℚ) / 127 * 280

/-- C8 (confirmed): the tempo hint shown for controller value `v` is
`20 + (v/127)*280` BPM; it is `20` at `v = 0`, `300` at `v = 127`, and
strictly increasing on `0..127`; when the hint display succeeds the value
is also stored in `tempo_last`. -/
theorem C8_tempo_mapping (surf : Surface) (st : AutomationState) (v : Nat) :
    Call.showTempoHint (tempoMap v) ∈ (OnMidiIn surf st 0xB0 4 v).calls ∧
    (surf.setHintOk = true → (OnMidiIn surf st 0xB0 4 v).st.tempo_last = tempoMap v) ∧
    tempoMap 0 = 20 ∧
    tempoMap 127 = 300 ∧
    (∀ v1 v2 : Nat, v1 < v2 → v2 ≤ 127 → tempoMap v1 < tempoMap v2) := by
  have hdisp : OnMidiIn surf st 0xB0 4 v = HandleControlChange surf st 4 v := by
    simp [OnMidiIn]
  refine ⟨?_, ?_, by norm_num [tempoMap], by norm_num [tempoMap], ?_⟩
  · rw [hdisp]
    simp only [HandleControlChange, MIDI_CC_MASTER_VOLUME, MIDI_CC_TRACK_VOLUME,
      MIDI_CC_PAN, MIDI_CC_TEMPO, tempoMap]
    norm_num
    split_ifs <;> simp
  · intro hs
    rw [hdisp]
    simp only [HandleControlChange, MIDI_CC_MASTER_VOLUME, MIDI_CC_TRACK_VOLUME,
      MIDI_CC_PAN, MIDI_CC_TEMPO, tempoMap]
    norm_num
    rw [if_pos hs]
  · intro v1 v2 hlt _
    have hc : (v1 : ℚ) < (v2 : ℚ) := by exact_mod_cast hlt
    simp only [tempoMap]
    linarith

/-- C8 witness: concrete instances — the tempo hint for value 5 on the
default surface, and strict growth between values 3 and 4. -/
theorem C8_witness :
    (OnMidiIn surfDefault initState 0xB0 4 5).st.tempo_last = tempoMap 5 ∧
    tempoMap 3 < tempoMap 4 := by
  have h := C8_tempo_mapping surfDefault initState 5
  exact ⟨h.2.1 rfl, (C8_tempo_mapping surfDefault initState 5).2.2.2.2 3 4
    (by norm_num) (by norm_num)⟩

/-- The normalisation the engine applies to every CC value byte (source
line 194): `normalized = cc_value / 127.0`. -/
def ccNormalized (v : Nat) : ℚ := (v : ℚ) / 127

/-- C9 (confirmed): controller 7 is handled identically to the dedicated
track-volume controller (CC 2) — the handler results are equal — and when
a track is selected it issues a selected-track volume of `v/127`, which is
`0` at `v = 0`, `1` at `v = 127`, and non-decreasing in `v`. -/
theorem C9_cc7_volume_alias (surf : Surface) (st : AutomationState)
    (v : Nat) (t : Int) :
    HandleControlChange surf st 7 v =
      HandleControlChange surf st MIDI_CC_TRACK_VOLUME v ∧
    (surf.selectedTrack = some t → 0 ≤ t →
      Call.setTrackVolume t (ccNormalized v) ∈ (OnMidiIn surf st 0xB0 7 v).calls) ∧
    ccNormalized 0 = 0 ∧
    ccNormalized 127 = 1 ∧
    (∀ v1 v2 : Nat, v1 ≤ v2 → ccNormalized v1 ≤ ccNormalized v2) := by
  refine ⟨rfl, ?_, by norm_num [ccNormalized], by norm_num [ccNormalized], ?_⟩
  · intro hsel ht
    have hdisp : OnMidiIn surf st 0xB0 7 v = HandleControlChange surf st 7 v := by
      simp [OnMidiIn]
    rw [hdisp]
    simp only [HandleControlChange, MIDI_CC_MASTER_VOLUME, MIDI_CC_TRACK_VOLUME,
      MIDI_CC_PAN, MIDI_CC_TEMPO, ccNormalized]
    norm_num
    rw [hsel]
    simp only
    rw [if_pos ht]
    split_ifs <;> simp
  · intro v1 v2 hle
    have hc : (v1 : ℚ) ≤ (v2 : ℚ) := by exact_mod_cast hle
    simp only [ccNormalized]
    linarith

/-- C9 witness: on the default surface (track 0 selected), `CC 7` with
value 127 issues a volume-1 command for track 0. -/
theorem C9_witness :
    Call.setTrackVolume 0 (ccNormalized 127) ∈
      (OnMidiIn surfDefault initState 0xB0 7 127).calls ∧
    ccNormalized 127 = 1 := by
  have h := C9_cc7_volume_alias surfDefault initState 127 0
  exact ⟨h.2.1 rfl (by norm_num), h.2.2.2.1⟩

/-- Two automation states agreeing on every field except possibly
`automation_enabled`. -/
def eqExceptFlag (a b : AutomationState) : Prop :=
  a.last_mixer_values = b.last_mixer_values ∧
  a.last_channel_values = b.last_channel_values ∧
  a.recording_enabled = b.recording_enabled ∧
  a.tempo_last = b.tempo_last ∧
  a.active_patterns = b.active_patterns

/-- Helper: `HandleNoteOn` neither reads nor branches on
`automation_enabled`: from states differing only in the flag it produces
the same calls, the same raise outcome, and states differing at most in
the flag. -/
theorem HandleNoteOn_flag_indep (surf : Surface) (s1 s2 : AutomationState)
    (n v : Nat) (h : eqExceptFlag s1 s2) :
    (HandleNoteOn surf s1 n v).calls = (HandleNoteOn surf s2 n v).calls ∧
    (HandleNoteOn surf s1 n v).raised = (HandleNoteOn surf s2 n v).raised ∧
    eqExceptFlag (HandleNoteOn surf s1 n v).st (HandleNoteOn surf s2 n v).st := by
  obtain ⟨m1, lc1, r1, b1, t1, p1⟩ := s1
  obtain ⟨m2, lc2, r2, b2, t2, p2⟩ := s2
  simp only [eqExceptFlag] at h
  obtain ⟨h1, h2, h3, h4, h5⟩ := h
  subst h1; subst h2; subst h3; subst h4; subst h5
  obtain ⟨ts, tp, gp, pc, chc, scv, selt, stv, stpan, sh⟩ := surf
  rcases pc with _ | c <;> rcases chc with _ | ch <;>
    simp only [HandleNoteOn] <;> split_ifs <;>
    exact ⟨rfl, rfl, rfl, rfl, rfl, rfl, rfl⟩

/-- Helper: `HandleNoteOff` neither reads nor branches on the flag. -/
theorem HandleNoteOff_flag_indep (s1 s2 : AutomationState) (n : Nat)
    (h : eqExceptFlag s1 s2) :
    (HandleNoteOff s1 n).calls = (HandleNoteOff s2 n).calls ∧
    (HandleNoteOff s1 n).raised = (HandleNoteOff s2 n).raised ∧
    eqExceptFlag (HandleNoteOff s1 n).st (HandleNoteOff s2 n).st := by
  obtain ⟨m1, lc1, r1, b1, t1, p1⟩ := s1
  obtain ⟨m2, lc2, r2, b2, t2, p2⟩ := s2
  simp only [eqExceptFlag] at h
  obtain ⟨h1, h2, h3, h4, h5⟩ := h
  subst h1; subst h2; subst h3; subst h4; subst h5
  simp only [HandleNoteOff] <;> split_ifs <;>
    exact ⟨rfl, rfl, rfl, rfl, rfl, rfl, rfl⟩

set_option maxHeartbeats 1600000 in
/-- Helper: `HandleControlChange` writes the flag (on CC 64, from the
value byte alone) but never reads it: from states differing only in the
flag it produces the same calls, the same raise outcome, and states
differing at most in the flag. -/
theorem HandleControlChange_flag_indep (surf : Surface) (s1 s2 : AutomationState)
    (cc v : Nat) (h : eqExceptFlag s1 s2) :
    (HandleControlChange surf s1 cc v).calls = (HandleControlChange surf s2 cc v).calls ∧
    (HandleControlChange surf s1 cc v).raised = (HandleControlChange surf s2 cc v).raised ∧
    eqExceptFlag (HandleControlChange surf s1 cc v).st
      (HandleControlChange surf s2 cc v).st := by
  obtain ⟨m1, lc1, r1, b1, t1, p1⟩ := s1
  obtain ⟨m2, lc2, r2, b2, t2, p2⟩ := s2
  simp only [eqExceptFlag] at h
  obtain ⟨h1, h2, h3, h4, h5⟩ := h
  subst h1; subst h2; subst h3; subst h4; subst h5
  obtain ⟨ts, tp, gp, pc, chc, scv, selt, stv, stpan, sh⟩ := surf
  rcases selt with _ | t <;>
    simp only [HandleControlChange] <;> split_ifs <;>
    exact ⟨rfl, rfl, rfl, rfl, rfl, rfl, rfl⟩

/-- Helper: one `OnMidiIn` step is flag-independent. -/
theorem OnMidiIn_flag_indep (surf : Surface) (s1 s2 : AutomationState)
    (e1 e2 e3 : Nat) (h : eqExceptFlag s1 s2) :
    (OnMidiIn surf s1 e1 e2 e3).calls = (OnMidiIn surf s2 e1 e2 e3).calls ∧
    (OnMidiIn surf s1 e1 e2 e3).raised = (OnMidiIn surf s2 e1 e2 e3).raised ∧
    eqExceptFlag (OnMidiIn surf s1 e1 e2 e3).st (OnMidiIn surf s2 e1 e2 e3).st := by
  simp only [OnMidiIn]
  split_ifs
  · exact HandleNoteOn_flag_indep surf s1 s2 e2 e3 h
  · exact HandleNoteOff_flag_indep s1 s2 e2 h
  · exact HandleControlChange_flag_indep surf s1 s2 e2 e3 h
  · rw [HandleProgramChange_st_eq surf s1 e2, HandleProgramChange_st_eq surf s2 e2]
    refine ⟨?_, ?_, h⟩ <;>
      obtain ⟨ts, tp, gp, pc, chc, scv, selt, stv, stpan, sh⟩ := surf <;>
      rcases pc with _ | c <;> simp only [HandleProgramChange] <;> split_ifs <;> rfl
  · exact ⟨rfl, rfl, h⟩

/-- Helper: flag-independence extended to whole event lists. -/
theorem runEvents_flag_indep (surf : Surface) (es : List (Nat × Nat × Nat)) :
    ∀ s1 s2 : AutomationState, eqExceptFlag s1 s2 →
    (runEvents surf s1 es).2.1 = (runEvents surf s2 es).2.1 ∧
    (runEvents surf s1 es).2.2 = (runEvents surf s2 es).2.2 ∧
    eqExceptFlag (runEvents surf s1 es).1 (runEvents surf s2 es).1 := by
  induction es with
  | nil => intro s1 s2 h; exact ⟨rfl, rfl, h⟩
  | cons e es ih =>
    intro s1 s2 h
    have hstep := OnMidiIn_flag_indep surf s1 s2 e.1 e.2.1 e.2.2 h
    have hrest := ih (OnMidiIn surf s1 e.1 e.2.1 e.2.2).st
      (OnMidiIn surf s2 e.1 e.2.1 e.2.2).st hstep.2.2
    simp only [runEvents]
    exact ⟨by rw [hstep.1, hrest.1], by rw [hstep.2.1, hrest.2.1], hrest.2.2⟩

/-- Helper: any frame other than a CC-64 control change leaves
`automation_enabled` untouched. -/
theorem OnMidiIn_flag_preserved (surf : Surface) (st : AutomationState)
    (e1 e2 e3 : Nat) (h : ¬(e1 = 0xB0 ∧ e2 = 64)) :
    (OnMidiIn surf st e1 e2 e3).st.automation_enabled = st.automation_enabled := by
  simp only [OnMidiIn]
  split_ifs with h1 h2 h3 h4
  · exact (HandleNoteOn_other_fields surf st e2 e3).2.2.2.1
  · exact (HandleNoteOff_other_fields st e2).2.2.2.1
  · have hcc : e2 ≠ 64 := fun hc => h ⟨h3, hc⟩
    obtain ⟨ts, tp, gp, pc, chc, scv, selt, stv, stpan, sh⟩ := surf
    rcases selt with _ | t <;>
      simp only [HandleControlChange] <;> split_ifs <;> rfl
  · rw [HandleProgramChange_st_eq surf st e2]
  · rfl

/-- C10 (confirmed): `automation_enabled` is write-only.  Two runs over
any event list from states that differ only in the flag issue exactly the
same external calls, have the same raise outcomes, and end in states that
again differ at most in the flag (so every other field gets the same
values); and the only frame that ever writes the flag is a control change
on controller 64 — every other frame leaves it untouched. -/
theorem C10_flag_write_only :
    (∀ (surf : Surface) (s1 s2 : AutomationState) (es : List (Nat × Nat × Nat)),
      eqExceptFlag s1 s2 →
      (runEvents surf s1 es).2.1 = (runEvents surf s2 es).2.1 ∧
      (runEvents surf s1 es).2.2 = (runEvents surf s2 es).2.2 ∧
      eqExceptFlag (runEvents surf s1 es).1 (runEvents surf s2 es).1) ∧
    (∀ (surf : Surface) (st : AutomationState) (e1 e2 e3 : Nat),
      ¬(e1 = 0xB0 ∧ e2 = 64) →
      (OnMidiIn surf st e1 e2 e3).st.automation_enabled = st.automation_enabled) := by
  exact ⟨fun surf s1 s2 es h => runEvents_flag_indep surf es s1 s2 h,
    fun surf st e1 e2 e3 h => OnMidiIn_flag_preserved surf st e1 e2 e3 h⟩

/-- C10 witness: a concrete pair of runs differing only in the flag ends
in states again equal off the flag, and a concrete non-CC-64 frame leaves
the flag untouched. -/
theorem C10_witness :
    eqExceptFlag
      (runEvents surfDefault initState [(0xB0, 7, 10), (0x90, 36, 5)]).1
      (runEvents surfDefault { initState with automation_enabled := false }
        [(0xB0, 7, 10), (0x90, 36, 5)]).1 ∧
    (OnMidiIn surfDefault initState 0x90 40 1).st.automation_enabled =
      initState.automation_enabled := by
  exact ⟨(C10_flag_write_only.1 surfDefault initState
      { initState with automation_enabled := false }
      [(0xB0, 7, 10), (0x90, 36, 5)] ⟨rfl, rfl, rfl, rfl, rfl⟩).2.2,
    C10_flag_write_only.2 surfDefault initState 0x90 40 1 (by decide)⟩
